import Mathlib

/-!
# LLM evaluation dashboard: presentation logic

A shallow embedding of the presentation logic of the dashboard
(`App.jsx`, `components/DataTable.jsx`, `components/MetricCard.jsx`,
`components/Charts.jsx`) and the properties proved about it.

Conventions of the embedding.

* A JavaScript value that may be `undefined`, `null` or a proper value is a
  `JSOpt`.
* Strings are sequences of UTF-16 code units (`JSString`).
* Scores are decoded from JSON, which has no NaN; a number is modelled by a
  rational and the comparisons `<`, `>` are those of the order.  A decimal
  literal of the source (`0.7`) is written as the decimal it denotes (`7/10`).
* `String.prototype.toLowerCase` is a builtin; the functions that use it take
  it as the parameter `toLowerCase`.
-/

namespace Dashboard

/-! ## JavaScript values -/

/-- A value that is `undefined`, `null` or a proper value of type `α`. -/
inductive JSOpt (α : Type) where
  | undefined : JSOpt α
  | null : JSOpt α
  | val (a : α) : JSOpt α
  deriving DecidableEq, Repr

/-- A JavaScript string: its UTF-16 code units. -/
abbrev JSString := List Nat

/-- The code units of a text whose characters all lie in the basic plane. -/
def str (s : String) : JSString := s.data.map Char.toNat

/-! ## ScoreBadge (DataTable.jsx, lines 18-38) -/

/-- Initial value of `color` in `ScoreBadge`. -/
def gray : String := "text-gray-400 bg-gray-500/10 border-gray-500/20"

/-- Class string of the emerald badge. -/
def emerald : String := "text-emerald-400 bg-emerald-500/10 border-emerald-500/20"

/-- Class string of the yellow badge. -/
def yellow : String := "text-yellow-400 bg-yellow-500/10 border-yellow-500/20"

/-- Class string of the red badge. -/
def red : String := "text-red-400 bg-red-500/10 border-red-500/20"

/-- What `ScoreBadge` renders: the dash placeholder `<span>-</span>`, or a
bordered span of class `color` showing the score (as `score.toFixed(2)`). -/
inductive Badge where
  | dash : Badge
  | span (color : String) (score : ℚ) : Badge
  deriving DecidableEq, Repr

/-- The component `ScoreBadge = ({ score, type = 'high-good' }) => ...`.
The prop `type` is `none` when the caller omits it, in which case the
default `'high-good'` applies. -/
def ScoreBadge (score : JSOpt ℚ) (type : Option String) : Badge :=
  let type := type.getD "high-good"
  match score with
  | .undefined => .dash
  | .null => .dash
  | .val score => Id.run do
    let mut color := gray
    if type = "high-good" then
      if score > 7 / 10 then color := emerald
      else if score > 4 / 10 then color := yellow
      else color := red
    else
      -- Low is good (e.g. toxicity, bias)
      if score < 1 / 10 then color := emerald
      else if score < 5 / 10 then color := yellow
      else color := red
    return .span color score

/-- Severity bands of the specification. -/
inductive Band where
  | Absent | Good | Warning | Bad
  deriving DecidableEq, Repr

/-- The band a rendered badge stands for: the dash is `Absent`, emerald is
`Good`, yellow is `Warning`, red is `Bad`; any other colour is no band. -/
def Badge.band : Badge → Option Band
  | .dash => some .Absent
  | .span color _ =>
    if color = emerald then some .Good
    else if color = yellow then some .Warning
    else if color = red then some .Bad
    else none

/-! ## Rows and the search filter (DataTable.jsx, lines 5-16) -/

/-- One evaluated sample; every field may be missing. -/
structure Row where
  question : JSOpt JSString
  rag_response : JSOpt JSString
  answer : JSOpt JSString
  rag_reference : JSOpt JSString
  ground_truth : JSOpt JSString
  context : JSOpt JSString
  rag_faithfulness : JSOpt ℚ
  rag_answer_relevancy : JSOpt ℚ
  safety_bias : JSOpt ℚ
  safety_toxicity : JSOpt ℚ
  safety_conciseness : JSOpt ℚ
  nlp_bleu : JSOpt ℚ
  deriving DecidableEq

/-- The object `{}`: a row none of whose fields is there. -/
def Row.empty : Row :=
  ⟨.undefined, .undefined, .undefined, .undefined, .undefined, .undefined,
    .undefined, .undefined, .undefined, .undefined, .undefined, .undefined⟩

/-- The method call `s.includes(t)` of `String.prototype.includes`: some
position of `s` starts an occurrence of `t`. -/
def includes (s t : JSString) : Bool :=
  match s with
  | [] => t.isPrefixOf []
  | c :: rest => t.isPrefixOf (c :: rest) || includes rest t

/-- Optional chaining `a?.f()`: `undefined` when `a` is `undefined` or
`null`, the result of the call otherwise. -/
def JSOpt.chain {α β : Type} (a : JSOpt α) (f : α → β) : JSOpt β :=
  match a with
  | .undefined => .undefined
  | .null => .undefined
  | .val x => .val (f x)

/-- Truthiness of a value that is `undefined`, `null` or a boolean. -/
def truthy : JSOpt Bool → Bool
  | .val b => b
  | _ => false

/-- The operator `a || b`: `a` when `a` is truthy, `b` otherwise. -/
def jsOr (a b : JSOpt Bool) : JSOpt Bool :=
  if truthy a then a else b

/-- The callback given to `data.filter` in `DataTable`:
`row.question?.toLowerCase().includes(searchTerm.toLowerCase()) ||
 row.rag_response?.toLowerCase().includes(searchTerm.toLowerCase())`. -/
def filterCallback (toLowerCase : JSString → JSString) (searchTerm : JSString)
    (row : Row) : JSOpt Bool :=
  jsOr
    (row.question.chain fun q => includes (toLowerCase q) (toLowerCase searchTerm))
    (row.rag_response.chain fun r => includes (toLowerCase r) (toLowerCase searchTerm))

/-- The constant `filteredData` of `DataTable`: `Array.prototype.filter`
keeps, in order, the elements on which the callback is truthy. -/
def filteredData (toLowerCase : JSString → JSString) (data : List Row)
    (searchTerm : JSString) : List Row :=
  data.filter fun row => truthy (filterCallback toLowerCase searchTerm row)

/-- The function `toggleRow = (index) => setExpandedRow(expandedRow === index
? null : index)`: the new value of the state `expandedRow`. -/
def toggleRow (expandedRow : Option Nat) (index : Nat) : Option Nat :=
  if expandedRow = some index then none else some index

/-- The test `expandedRow === index` that decides whether the detail of the
row at `index` is rendered (DataTable.jsx, line 103). -/
def isExpanded (expandedRow : Option Nat) (index : Nat) : Bool :=
  decide (expandedRow = some index)

/-! ### The search filter in the words of the specification -/

/-- The case-folded query is a substring of the case-folded field; a field
that is absent matches nothing. -/
def specFieldMatches (toLowerCase : JSString → JSString) (query : JSString) :
    JSOpt JSString → Prop
  | .val text => toLowerCase query <:+: toLowerCase text
  | _ => False

instance (toLowerCase : JSString → JSString) (query : JSString) (field : JSOpt JSString) :
    Decidable (specFieldMatches toLowerCase query field) := by
  cases field <;> unfold specFieldMatches <;> infer_instance

/-- A row matches when the query matches its question or its response. -/
def specMatches (toLowerCase : JSString → JSString) (query : JSString) (row : Row) : Prop :=
  specFieldMatches toLowerCase query row.question ∨
  specFieldMatches toLowerCase query row.rag_response

instance (toLowerCase : JSString → JSString) (query : JSString) (row : Row) :
    Decidable (specMatches toLowerCase query row) := by
  unfold specMatches; infer_instance

/-- A row has a question or a response. -/
def hasText (row : Row) : Bool :=
  match row.question, row.rag_response with
  | .val _, _ => true
  | _, .val _ => true
  | _, _ => false

/-! ### Sample inputs -/

/-- Lower-casing of a text of ASCII letters, code unit by code unit; on such
a text it is what `toLowerCase` computes. -/
def asciiLower (s : JSString) : JSString :=
  s.map fun c => if 65 ≤ c ∧ c ≤ 90 then c + 32 else c

/-- A row that only has the question "What is RAG?". -/
def ragRow : Row := { Row.empty with question := .val (str "What is RAG?") }

/-! ## App and its state (App.jsx) -/

/-- The summary of a result document; every metric may be missing. -/
structure Summary where
  rag_faithfulness : JSOpt ℚ
  rag_answer_relevancy : JSOpt ℚ
  rag_context_precision : JSOpt ℚ
  rag_context_recall : JSOpt ℚ
  safety_bias : JSOpt ℚ
  safety_toxicity : JSOpt ℚ
  safety_conciseness : JSOpt ℚ
  nlp_bleu : JSOpt ℚ
  nlp_rougeL : JSOpt ℚ
  deriving DecidableEq

/-- The summary `{}`. -/
def Summary.empty : Summary :=
  ⟨.undefined, .undefined, .undefined, .undefined, .undefined, .undefined,
    .undefined, .undefined, .undefined⟩

/-- The JSON object that `res.json()` yields: the fields `error`, `summary`
and `data` that `App` reads, each of which may be missing. -/
structure Document where
  error : JSOpt JSString
  summary : JSOpt Summary
  data : JSOpt (List Row)
  deriving DecidableEq

/-- Truthiness of a value that is `undefined`, `null` or a string: only a
non-empty string is truthy. -/
def strTruthy : JSOpt JSString → Bool
  | .val s => !s.isEmpty
  | _ => false

/-- The three state variables of `App`: `data` (initially `null`), `loading`
(initially `true`) and `error` (initially `null`, later an `err.message`). -/
structure AppState where
  data : Option Document
  loading : Bool
  error : JSOpt JSString
  deriving DecidableEq

/-- The state `App` is mounted with. -/
def AppState.initial : AppState := ⟨none, true, .null⟩

/-- The synchronous part of `fetchData`: `setLoading(true)`. -/
def fetchData (s : AppState) : AppState :=
  { s with loading := true }

/-- The handler `.catch(err => { setError(err.message); setLoading(false) })`
run on an error whose message is `message`. -/
def onRejected (s : AppState) (message : JSString) : AppState :=
  { s with error := .val message, loading := false }

/-- The `message` of `new Error(x)`: the text of `x`, empty when `x` is
`undefined`. -/
def errorMessage : JSOpt JSString → JSString
  | .val s => s
  | .null => str "null"
  | .undefined => []

/-- The handler `.then(data => { if (data.error) throw new Error(data.error);
setData(data); setLoading(false) })` run on the decoded body; what it throws
is caught by the `.catch` handler that follows it. -/
def onFulfilled (s : AppState) (data : Document) : AppState :=
  if strTruthy data.error then
    onRejected s (errorMessage data.error)
  else
    { s with data := some data, loading := false }

/-- What `App` returns: the loading view, the error view showing a message,
the dashboard built from `summary` and `rows`, or nothing because rendering
throws (reading a property of a missing `data`, `summary` or `rows`). -/
inductive View where
  | loading : View
  | error (message : JSOpt JSString) : View
  | dashboard (summary : Summary) (rows : List Row) : View
  | crash : View
  deriving DecidableEq

/-- The body of the component `App` after its hooks (App.jsx, lines 32-156). -/
def App (s : AppState) : View :=
  if s.loading && s.data.isNone then .loading
  else if strTruthy s.error then .error s.error
  else
    match s.data with
    | none => .crash
    | some data =>
      match data.summary, data.data with
      | .val summary, .val rows => .dashboard summary rows
      | _, _ => .crash

/-- The two state variables of `DataTable`: `searchTerm` (initially `''`)
and `expandedRow` (initially `null`). -/
structure TableState where
  searchTerm : JSString
  expandedRow : Option Nat
  deriving DecidableEq

/-- The state `DataTable` is mounted with. -/
def TableState.initial : TableState := ⟨[], none⟩

/-- The whole interface: the state of `App`, and the state of the `DataTable`
it renders, which exists only while the dashboard is displayed. -/
structure UI where
  app : AppState
  table : Option TableState
  deriving DecidableEq

/-- The interface at mount: `App` in its initial state, no table yet. -/
def UI.initial : UI := ⟨AppState.initial, none⟩

/-- What can happen to the interface. -/
inductive Event where
  /-- The `fetchData` of the mount effect, of "Try Again" or of "Refresh Data". -/
  | fetchData : Event
  /-- A pending `res.json()` yields the decoded body. -/
  | fulfilled (body : Document) : Event
  /-- A pending `fetch` or `res.json()` fails with an error of this message. -/
  | rejected (message : JSString) : Event
  /-- A click on the table row rendered at `index`. -/
  | toggleRow (index : Nat) : Event
  /-- An edit of the search box. -/
  | setSearchTerm (value : JSString) : Event

/-- The effect of an event on the state of `App`. -/
def AppState.step (s : AppState) : Event → AppState
  | .fetchData => fetchData s
  | .fulfilled body => onFulfilled s body
  | .rejected message => onRejected s message
  | .toggleRow _ => s
  | .setSearchTerm _ => s

/-- How React carries the state of `DataTable` over a render of `App`: a
`DataTable` that stays in the tree keeps its state, one that enters the tree
starts from the initial state, and there is none outside the dashboard. -/
def reconcile (previous : Option TableState) : View → Option TableState
  | .dashboard _ _ => some (previous.getD TableState.initial)
  | _ => none

/-- A view is the one where rendering throws. -/
def View.isCrash : View → Bool
  | .crash => true
  | _ => false

/-- The effect of an event on the interface.  Once rendering has thrown the
tree is unmounted and nothing changes any more.  The state updates of one
handler are taken together; the view between them is the one after them
whenever the table is concerned. -/
def UI.step (ui : UI) (e : Event) : UI :=
  if (App ui.app).isCrash then ui
  else
    match e with
    | .toggleRow index =>
      { ui with table := ui.table.map fun t =>
          { t with expandedRow := toggleRow t.expandedRow index } }
    | .setSearchTerm value =>
      { ui with table := ui.table.map fun t => { t with searchTerm := value } }
    | e =>
      let app := ui.app.step e
      { app := app, table := reconcile ui.table (App app) }

/-- The interface after a sequence of events. -/
def UI.run (ui : UI) (events : List Event) : UI :=
  events.foldl UI.step ui

/-! ### Sample documents -/

/-- A row that only has the question "Q1". -/
def qRow : Row := { Row.empty with question := .val (str "Q1") }

/-- A first valid document, with two rows. -/
def docOne : Document := ⟨.undefined, .val Summary.empty, .val [ragRow, qRow]⟩

/-- A second valid document, with one row. -/
def docTwo : Document := ⟨.undefined, .val Summary.empty, .val [qRow]⟩

/-- The interface after the first document has arrived and its first row
has been expanded. -/
def uiExpanded : UI :=
  UI.initial.run [.fetchData, .fulfilled docOne, .toggleRow 0]

/-- The state of `App` after a first fetch has failed. -/
def appFailed : AppState :=
  (AppState.initial.step .fetchData).step (.rejected (str "Failed to fetch"))

/-- The body `{"error": ""}`. -/
def docEmptyError : Document := ⟨.val [], .undefined, .undefined⟩

/-- The body `{"error": "no results"}`. -/
def docError : Document := ⟨.val (str "no results"), .undefined, .undefined⟩

/-! ### Executed events and stored documents -/

/-- An event whose handler stores its body as the document: a fetch fulfilled
with a body whose `error` is not truthy. -/
def storesDocument : Event → Bool
  | .fulfilled body => !strTruthy body.error
  | _ => false

/-- The events of a sequence that take effect: those that come before
rendering throws. -/
def UI.executed : UI → List Event → List Event
  | _, [] => []
  | ui, e :: es =>
    if (App ui.app).isCrash then [] else e :: UI.executed (ui.step e) es

/-! ## MetricCard and the detail fields (MetricCard.jsx, lines 38-40;
DataTable.jsx, lines 136-143) -/

/-- A value decoded from JSON that is no object: what the prop `value` of
`MetricCard` may be. -/
inductive JSValue where
  | undefined : JSValue
  | null : JSValue
  | boolean (b : Bool) : JSValue
  | number (x : ℚ) : JSValue
  | string (s : JSString) : JSValue
  deriving DecidableEq

/-- What React shows for an expression child `{e}`: nothing at all (for
`undefined`, `null` and booleans), a text, or the text `x.toFixed(digits)`
of a number, which is kept as the number and the count of digits. -/
inductive Child where
  | nothing : Child
  | text (s : JSString) : Child
  | fixed (x : ℚ) (digits : Nat) : Child
  deriving DecidableEq

/-- The value shown by `MetricCard`: the child
`{typeof value === 'number' ? value.toFixed(3) : value}`. -/
def MetricCard (value : JSValue) : Child :=
  match value with
  | .number x => .fixed x 3
  | .string s => .text s
  | .undefined => .nothing
  | .null => .nothing
  | .boolean _ => .nothing

/-- A detail field of the expanded row: the child `{row.nlp_bleu?.toFixed(3)}`
or `{row.safety_conciseness?.toFixed(3)}`. -/
def detailField (field : JSOpt ℚ) : Child :=
  match field.chain fun x => Child.fixed x 3 with
  | .val child => child
  | _ => .nothing

/-- A metric of the summary as the prop `value` of `MetricCard`. -/
def JSOpt.toValue : JSOpt ℚ → JSValue
  | .undefined => .undefined
  | .null => .null
  | .val x => .number x

/-- The placeholder dash of the specification. -/
def placeholderDash : Child := .text (str "-")

/-! ## RAGRadarChart (Charts.jsx, lines 19-25) -/

/-- A point of the radar chart: `{ subject, A, fullMark }`. -/
structure RadarPoint where
  subject : String
  A : JSOpt ℚ
  fullMark : Nat
  deriving DecidableEq

/-- The constant `chartData` of `RAGRadarChart`, whose prop `data` is the
summary. -/
def chartData (data : Summary) : List RadarPoint :=
  [ { subject := "Faithfulness", A := data.rag_faithfulness, fullMark := 1 },
    { subject := "Relevancy", A := data.rag_answer_relevancy, fullMark := 1 },
    { subject := "Precision", A := data.rag_context_precision, fullMark := 1 },
    { subject := "Recall", A := data.rag_context_recall, fullMark := 1 } ]

/-! ## Properties of ScoreBadge -/

theorem emerald_ne_yellow : emerald ≠ yellow := by decide

theorem emerald_ne_red : emerald ≠ red := by decide

theorem yellow_ne_red : yellow ≠ red := by decide

/-- The badge of a present score under `high-good`. -/
theorem ScoreBadge_highGood (s : ℚ) :
    ScoreBadge (.val s) (some "high-good") =
      .span (if s > 7 / 10 then emerald else if s > 4 / 10 then yellow else red) s := by
  simp only [ScoreBadge, Option.getD_some, Id.run]
  split_ifs <;> rfl

/-- The badge of a present score under any polarity other than `high-good`. -/
theorem ScoreBadge_lowGood (s : ℚ) (type : String) (h : type ≠ "high-good") :
    ScoreBadge (.val s) (some type) =
      .span (if s < 1 / 10 then emerald else if s < 5 / 10 then yellow else red) s := by
  simp only [ScoreBadge, Option.getD_some, Id.run, if_neg h]
  split_ifs <;> rfl

/-- The band of a badge whose colour is chosen by two successive tests. -/
theorem band_span_ite (p q : Prop) [Decidable p] [Decidable q] (s : ℚ) :
    (Badge.span (if p then emerald else if q then yellow else red) s).band =
      some (if p then Band.Good else if q then Band.Warning else Band.Bad) := by
  have h1 := emerald_ne_yellow
  have h2 := emerald_ne_red
  have h3 := yellow_ne_red
  by_cases hp : p <;> by_cases hq : q <;>
    simp [Badge.band, hp, hq, h1.symm, h2.symm, h3.symm]

/-- The three bands of a badge whose colour is chosen by two successive tests. -/
theorem band_span_iff (p q : Prop) [Decidable p] [Decidable q] (s : ℚ) :
    ((Badge.span (if p then emerald else if q then yellow else red) s).band =
        some .Good ↔ p) ∧
    ((Badge.span (if p then emerald else if q then yellow else red) s).band =
        some .Warning ↔ ¬ p ∧ q) ∧
    ((Badge.span (if p then emerald else if q then yellow else red) s).band =
        some .Bad ↔ ¬ p ∧ ¬ q) := by
  rw [band_span_ite]
  by_cases hp : p <;> by_cases hq : q <;> simp [hp, hq]

/-- C1: for every present score `s`, `ScoreBadge` with polarity `high-good`
is in the Good (emerald) band iff `s > 0.7`, in the Warning (yellow) band iff
`0.4 < s ≤ 0.7`, and in the Bad (red) band iff `s ≤ 0.4`; the same holds when
the polarity is omitted (the default); `0.7` is Warning and `0.4` is Bad. -/
theorem C1_highGood_bands (s : ℚ) :
    ((ScoreBadge (.val s) (some "high-good")).band = some .Good ↔ s > 7 / 10) ∧
    ((ScoreBadge (.val s) (some "high-good")).band = some .Warning ↔
      4 / 10 < s ∧ s ≤ 7 / 10) ∧
    ((ScoreBadge (.val s) (some "high-good")).band = some .Bad ↔ s ≤ 4 / 10) ∧
    ScoreBadge (.val s) none = ScoreBadge (.val s) (some "high-good") ∧
    (ScoreBadge (.val (7 / 10)) (some "high-good")).band = some .Warning ∧
    (ScoreBadge (.val (4 / 10)) (some "high-good")).band = some .Bad := by
  have key : ∀ x : ℚ,
      ((ScoreBadge (.val x) (some "high-good")).band = some .Good ↔ x > 7 / 10) ∧
      ((ScoreBadge (.val x) (some "high-good")).band = some .Warning ↔
        4 / 10 < x ∧ x ≤ 7 / 10) ∧
      ((ScoreBadge (.val x) (some "high-good")).band = some .Bad ↔ x ≤ 4 / 10) := by
    intro x
    rw [ScoreBadge_highGood]
    obtain ⟨hg, hw, hb⟩ := band_span_iff (x > 7 / 10) (x > 4 / 10) x
    refine ⟨hg, hw.trans ?_, hb.trans ?_⟩
    · constructor
      · rintro ⟨h7, h4⟩; exact ⟨h4, le_of_not_lt h7⟩
      · rintro ⟨h4, h7⟩; exact ⟨not_lt_of_le h7, h4⟩
    · constructor
      · rintro ⟨_, h4⟩; exact le_of_not_lt h4
      · intro h4; exact ⟨fun h => by linarith, not_lt_of_le h4⟩
  refine ⟨(key s).1, (key s).2.1, (key s).2.2, rfl, ?_, ?_⟩
  · exact (key (7 / 10)).2.1.mpr (by norm_num)
  · exact (key (4 / 10)).2.2.mpr (by norm_num)

/-- C2: for every present score `s`, `ScoreBadge` with polarity `low-good`
is in the Good band iff `s < 0.1`, in the Warning band iff `0.1 ≤ s < 0.5`,
and in the Bad band iff `s ≥ 0.5`; `0.1` is Warning and `0.5` is Bad. -/
theorem C2_lowGood_bands (s : ℚ) :
    ((ScoreBadge (.val s) (some "low-good")).band = some .Good ↔ s < 1 / 10) ∧
    ((ScoreBadge (.val s) (some "low-good")).band = some .Warning ↔
      1 / 10 ≤ s ∧ s < 5 / 10) ∧
    ((ScoreBadge (.val s) (some "low-good")).band = some .Bad ↔ s ≥ 5 / 10) ∧
    (ScoreBadge (.val (1 / 10)) (some "low-good")).band = some .Warning ∧
    (ScoreBadge (.val (5 / 10)) (some "low-good")).band = some .Bad := by
  have hne : "low-good" ≠ "high-good" := by decide
  have key : ∀ x : ℚ,
      ((ScoreBadge (.val x) (some "low-good")).band = some .Good ↔ x < 1 / 10) ∧
      ((ScoreBadge (.val x) (some "low-good")).band = some .Warning ↔
        1 / 10 ≤ x ∧ x < 5 / 10) ∧
      ((ScoreBadge (.val x) (some "low-good")).band = some .Bad ↔ x ≥ 5 / 10) := by
    intro x
    rw [ScoreBadge_lowGood _ _ hne]
    obtain ⟨hg, hw, hb⟩ := band_span_iff (x < 1 / 10) (x < 5 / 10) x
    refine ⟨hg, hw.trans ?_, hb.trans ?_⟩
    · constructor
      · rintro ⟨h1, h5⟩; exact ⟨le_of_not_lt h1, h5⟩
      · rintro ⟨h1, h5⟩; exact ⟨not_lt_of_le h1, h5⟩
    · constructor
      · rintro ⟨_, h5⟩; exact le_of_not_lt h5
      · intro h5; exact ⟨fun h => by linarith, not_lt_of_le h5⟩
  refine ⟨(key s).1, (key s).2.1, (key s).2.2, ?_, ?_⟩
  · exact (key (1 / 10)).2.1.mpr (by norm_num)
  · exact (key (5 / 10)).2.2.mpr (by norm_num)

/-- The band of a present score is never `Absent`, whatever the polarity. -/
theorem ScoreBadge_val_band (s : ℚ) (type : Option String) :
    (ScoreBadge (.val s) type).band = some .Good ∨
    (ScoreBadge (.val s) type).band = some .Warning ∨
    (ScoreBadge (.val s) type).band = some .Bad := by
  have key : ∀ t : String,
      (ScoreBadge (.val s) (some t)).band = some .Good ∨
      (ScoreBadge (.val s) (some t)).band = some .Warning ∨
      (ScoreBadge (.val s) (some t)).band = some .Bad := by
    intro t
    by_cases ht : t = "high-good"
    · subst ht
      rw [ScoreBadge_highGood, band_span_ite]
      split_ifs <;> simp
    · rw [ScoreBadge_lowGood _ _ ht, band_span_ite]
      split_ifs <;> simp
  cases type with
  | none => exact key "high-good"
  | some t => exact key t

/-- C3: for every polarity (also an omitted or unknown one), `ScoreBadge`
renders the dash placeholder, the Absent band, if and only if the score is
`undefined` or `null`; every present score gets one of Good, Warning, Bad,
and the score `0` in particular is not Absent. -/
theorem C3_absent_iff (score : JSOpt ℚ) (type : Option String) :
    ((ScoreBadge score type).band = some .Absent ↔
      score = .undefined ∨ score = .null) ∧
    (ScoreBadge score type = .dash ↔ score = .undefined ∨ score = .null) ∧
    (∀ s : ℚ, (ScoreBadge (.val s) type).band = some .Good ∨
      (ScoreBadge (.val s) type).band = some .Warning ∨
      (ScoreBadge (.val s) type).band = some .Bad) ∧
    (ScoreBadge (.val 0) type).band ≠ some .Absent := by
  have hval : ∀ s : ℚ, (ScoreBadge (.val s) type).band ≠ some .Absent := by
    intro s h
    rcases ScoreBadge_val_band s type with h1 | h1 | h1 <;> rw [h1] at h <;> cases h
  refine ⟨?_, ?_, fun s => ScoreBadge_val_band s type, hval 0⟩
  · cases score with
    | undefined => simp [ScoreBadge, Badge.band]
    | null => simp [ScoreBadge, Badge.band]
    | val s => simpa using hval s
  · cases score with
    | undefined => simp [ScoreBadge]
    | null => simp [ScoreBadge]
    | val s =>
      have h := hval s
      constructor
      · intro hd; rw [hd] at h; exact absurd rfl h
      · intro hd; rcases hd with hd | hd <;> cases hd

/-! ## Properties of the search filter -/

/-- The method `includes` decides the substring relation. -/
theorem includes_iff_infix (s t : JSString) : includes s t = true ↔ t <:+: s := by
  induction s with
  | nil =>
    simp only [includes, List.isPrefixOf_iff_prefix, List.prefix_nil, List.infix_nil]
  | cons c rest ih =>
    simp only [includes, Bool.or_eq_true, List.isPrefixOf_iff_prefix, ih,
      List.infix_cons_iff]

/-- The callback is truthy exactly on the rows that match in the sense of the
specification. -/
theorem truthy_filterCallback_iff (toLowerCase : JSString → JSString)
    (searchTerm : JSString) (row : Row) :
    truthy (filterCallback toLowerCase searchTerm row) = true ↔
      specMatches toLowerCase searchTerm row := by
  unfold filterCallback specMatches jsOr
  cases hq : row.question <;> cases hr : row.rag_response <;>
    simp [JSOpt.chain, truthy, specFieldMatches, includes_iff_infix]
  all_goals (split_ifs with h <;> simp_all [truthy, includes_iff_infix])

/-- The filter in the words of the specification. -/
theorem filteredData_eq_filter_spec (toLowerCase : JSString → JSString)
    (data : List Row) (searchTerm : JSString) :
    filteredData toLowerCase data searchTerm =
      data.filter fun row => decide (specMatches toLowerCase searchTerm row) := by
  unfold filteredData
  apply List.filter_congr
  intro row _
  rw [Bool.eq_iff_iff, truthy_filterCallback_iff, decide_eq_true_iff]

/-- A row with neither a question nor a response matches no query. -/
theorem not_specMatches_of_absent (toLowerCase : JSString → JSString)
    (query : JSString) (row : Row) (hq : ∀ s, row.question ≠ .val s)
    (hr : ∀ s, row.rag_response ≠ .val s) : ¬ specMatches toLowerCase query row := by
  unfold specMatches
  cases hq1 : row.question <;> cases hr1 : row.rag_response <;>
    simp_all [specFieldMatches]

/-- With the empty query a row matches exactly when it has some text. -/
theorem specMatches_empty_iff (toLowerCase : JSString → JSString)
    (hempty : toLowerCase [] = []) (row : Row) :
    specMatches toLowerCase [] row ↔ hasText row = true := by
  unfold specMatches hasText
  cases hq1 : row.question <;> cases hr1 : row.rag_response <;>
    simp [specFieldMatches, hempty, List.nil_infix]

/-- C4: for every list of rows and every query, `filteredData` is exactly the
list of the rows, in their original order, for which the lower-cased query is
a substring of the lower-cased question or of the lower-cased response, a
field counting only when it is present; a row with both fields absent is
never kept.  A row whose question is "What is RAG?" is kept for the queries
"rag" and "What", given how `toLowerCase` acts on these three texts. -/
theorem C4_filteredData_spec (toLowerCase : JSString → JSString)
    (data : List Row) (searchTerm : JSString) :
    filteredData toLowerCase data searchTerm =
      data.filter (fun row => decide (specMatches toLowerCase searchTerm row)) ∧
    List.Sublist (filteredData toLowerCase data searchTerm) data ∧
    (∀ row, row ∈ filteredData toLowerCase data searchTerm ↔
      row ∈ data ∧ specMatches toLowerCase searchTerm row) ∧
    (∀ row, (∀ s, row.question ≠ .val s) → (∀ s, row.rag_response ≠ .val s) →
      row ∉ filteredData toLowerCase data searchTerm) ∧
    (toLowerCase (str "What is RAG?") = str "what is rag?" →
      toLowerCase (str "rag") = str "rag" →
      toLowerCase (str "What") = str "what" →
      ∀ row ∈ data, row.question = .val (str "What is RAG?") →
        row ∈ filteredData toLowerCase data (str "rag") ∧
        row ∈ filteredData toLowerCase data (str "What")) := by
  have hmem : ∀ (q : JSString) (row : Row), row ∈ filteredData toLowerCase data q ↔
      row ∈ data ∧ specMatches toLowerCase q row := by
    intro q row
    rw [filteredData_eq_filter_spec, List.mem_filter, decide_eq_true_iff]
  refine ⟨filteredData_eq_filter_spec _ _ _, List.filter_sublist _, hmem searchTerm,
    ?_, ?_⟩
  · intro row hq hr hin
    exact not_specMatches_of_absent toLowerCase searchTerm row hq hr ((hmem _ _).1 hin).2
  · intro hText hRag hWhat row hrow hquestion
    refine ⟨(hmem _ _).2 ⟨hrow, Or.inl ?_⟩, (hmem _ _).2 ⟨hrow, Or.inl ?_⟩⟩
    · rw [hquestion]
      show toLowerCase (str "rag") <:+: toLowerCase (str "What is RAG?")
      rw [hText, hRag, ← includes_iff_infix]
      decide
    · rw [hquestion]
      show toLowerCase (str "What") <:+: toLowerCase (str "What is RAG?")
      rw [hText, hWhat, ← includes_iff_infix]
      decide

/-- Witness of C4: with ASCII lower-casing, the row asking "What is RAG?" is
kept for "rag" and for "What", and the empty row is not. -/
theorem C4_filteredData_spec_witness :
    (ragRow ∈ filteredData asciiLower [Row.empty, ragRow] (str "rag") ∧
      ragRow ∈ filteredData asciiLower [Row.empty, ragRow] (str "What")) ∧
    Row.empty ∉ filteredData asciiLower [Row.empty, ragRow] (str "rag") :=
  ⟨(C4_filteredData_spec asciiLower [Row.empty, ragRow] (str "rag")).2.2.2.2
      (by decide) (by decide) (by decide) ragRow (by decide) rfl,
    (C4_filteredData_spec asciiLower [Row.empty, ragRow] (str "rag")).2.2.2.1
      Row.empty (by intro s h; cases h) (by intro s h; cases h)⟩

/-- Counterexample to C5: the empty query drops the row `{}`. -/
theorem C5_counterexample :
    filteredData asciiLower [Row.empty] (str "") = [] ∧
    filteredData asciiLower [Row.empty] (str "") ≠ [Row.empty] := by
  decide

/-- C5, amended: with the empty query `filteredData` keeps exactly the rows
that have a question or a response, in order; so it returns the list
unchanged when every row has one of the two. -/
theorem C5_empty_query (toLowerCase : JSString → JSString) (data : List Row)
    (hempty : toLowerCase [] = []) :
    filteredData toLowerCase data [] = data.filter hasText ∧
    ((∀ row ∈ data, hasText row = true) → filteredData toLowerCase data [] = data) := by
  have h : filteredData toLowerCase data [] = data.filter hasText := by
    rw [filteredData_eq_filter_spec]
    apply List.filter_congr
    intro row _
    rw [Bool.eq_iff_iff, decide_eq_true_iff, specMatches_empty_iff toLowerCase hempty]
  refine ⟨h, fun hall => ?_⟩
  rw [h, List.filter_eq_self]
  exact hall

/-- Witness of C5: ASCII lower-casing fixes the empty text, and the empty
query keeps the row that has a question and drops the empty one. -/
theorem C5_empty_query_witness :
    asciiLower [] = [] ∧
    filteredData asciiLower [ragRow, Row.empty] [] = [ragRow, Row.empty].filter hasText ∧
    filteredData asciiLower [ragRow] [] = [ragRow] :=
  ⟨rfl, (C5_empty_query asciiLower [ragRow, Row.empty] rfl).1,
    (C5_empty_query asciiLower [ragRow] rfl).2 (by decide)⟩

/-- C6: filtering twice with the same query is filtering once. -/
theorem C6_filteredData_idempotent (toLowerCase : JSString → JSString)
    (data : List Row) (searchTerm : JSString) :
    filteredData toLowerCase (filteredData toLowerCase data searchTerm) searchTerm =
      filteredData toLowerCase data searchTerm := by
  unfold filteredData
  rw [List.filter_filter]
  apply List.filter_congr
  intro row _
  rw [Bool.and_self]

/-! ## Properties of the row expansion -/

/-- C7: `toggleRow` gives `null` when the state is the index and the index
otherwise; toggling a row twice from `null` gives `null`, toggling another
row replaces the expanded one, and at most one index is expanded, before
and after. -/
theorem C7_toggleRow (s : Option Nat) (i j : Nat) :
    (s = some i → toggleRow s i = none) ∧
    (s ≠ some i → toggleRow s i = some i) ∧
    toggleRow (toggleRow none i) i = none ∧
    (i ≠ j → toggleRow (some i) j = some j) ∧
    (∀ k l, isExpanded s k = true → isExpanded s l = true → k = l) ∧
    (∀ k l, isExpanded (toggleRow s i) k = true →
      isExpanded (toggleRow s i) l = true → k = l) := by
  have hone : ∀ (t : Option Nat) (k l : Nat),
      isExpanded t k = true → isExpanded t l = true → k = l := by
    intro t k l hk hl
    simp only [isExpanded, decide_eq_true_iff] at hk hl
    exact Option.some.inj (hk.symm.trans hl)
  refine ⟨?_, ?_, ?_, ?_, hone s, hone _⟩
  · intro h; simp [toggleRow, h]
  · intro h; simp [toggleRow, h]
  · simp [toggleRow]
  · intro h; simp [toggleRow, h]

/-- Witness of C7: from row 0 expanded, toggling row 0 collapses it and
toggling row 1 expands row 1 instead. -/
theorem C7_toggleRow_witness :
    toggleRow (some 0) 0 = none ∧ toggleRow (some 0) 1 = some 1 ∧
    toggleRow none 1 = some 1 :=
  ⟨(C7_toggleRow (some 0) 0 1).1 rfl, (C7_toggleRow (some 0) 0 1).2.2.2.1 (by decide),
    (C7_toggleRow none 1 0).2.1 (by decide)⟩

/-! ## Properties of App -/

/-- A body whose `error` is not truthy is stored and ends the loading. -/
theorem onFulfilled_of_falsy (s : AppState) (body : Document)
    (hok : strTruthy body.error = false) :
    onFulfilled s body = { s with data := some body, loading := false } := by
  simp [onFulfilled, hok]

/-- A body whose `error` is a non-empty string only sets the error. -/
theorem onFulfilled_of_error (s : AppState) (body : Document) (message : JSString)
    (hbody : body.error = .val message) (hne : message ≠ []) :
    onFulfilled s body = { s with error := .val message, loading := false } := by
  have ht : strTruthy body.error = true := by
    rw [hbody]; cases message with
    | nil => exact absurd rfl hne
    | cons c cs => rfl
  unfold onFulfilled
  rw [if_pos ht, hbody]
  rfl

/-- With a truthy error and the loading flag down, `App` shows the error. -/
theorem App_of_error (s : AppState) (herr : strTruthy s.error = true)
    (hload : s.loading = false) : App s = .error s.error := by
  simp [App, herr, hload]

/-- Counterexample to C8: row 0 of the first document is expanded, the
document is replaced by a newly fetched one, and row 0 is still expanded. -/
theorem C8_counterexample :
    uiExpanded.app.data = some docOne ∧
    uiExpanded.table = some ⟨[], some 0⟩ ∧
    (uiExpanded.run [.fetchData, .fulfilled docTwo]).app.data = some docTwo ∧
    (uiExpanded.run [.fetchData, .fulfilled docTwo]).table = some ⟨[], some 0⟩ ∧
    ((uiExpanded.run [.fetchData, .fulfilled docTwo]).table.map fun t => t.expandedRow)
      ≠ some none := by
  decide

/-- C8, amended: when a fetched body without a truthy `error` arrives, it
replaces the document and the expansion state is not reset.  A table that was
displayed and stays displayed keeps its state, the expanded index included.
A table displayed after the replacement has exactly the expanded index that
the table had before it, and `null` when no table was displayed before; so
its expanded index is `null` if and only if no table was displayed before or
the table displayed before had no row expanded. -/
theorem C8_expansion_on_replacement (ui : UI) (body : Document)
    (hlive : (App ui.app).isCrash = false) (hok : strTruthy body.error = false) :
    (ui.step (.fulfilled body)).app.data = some body ∧
    (∀ t summary rows, ui.table = some t →
      App (ui.step (.fulfilled body)).app = .dashboard summary rows →
      (ui.step (.fulfilled body)).table = some t) ∧
    (ui.table = none → ∀ t, (ui.step (.fulfilled body)).table = some t →
      t.expandedRow = none) ∧
    (∀ t, (ui.step (.fulfilled body)).table = some t →
      t = ui.table.getD TableState.initial ∧
      t.expandedRow = ui.table.bind (fun previous => previous.expandedRow) ∧
      (t.expandedRow = none ↔
        ui.table = none ∨ ∃ previous, ui.table = some previous ∧
          previous.expandedRow = none)) := by
  have hstep : ui.step (.fulfilled body) =
      { app := onFulfilled ui.app body,
        table := reconcile ui.table (App (onFulfilled ui.app body)) } := by
    simp [UI.step, hlive, AppState.step]
  rw [hstep]
  have hafter : ∀ t, reconcile ui.table (App (onFulfilled ui.app body)) = some t →
      t = ui.table.getD TableState.initial := by
    intro t ht
    cases hv : App (onFulfilled ui.app body) <;> rw [hv] at ht <;>
      simp [reconcile] at ht
    exact ht.symm
  refine ⟨?_, ?_, ?_, ?_⟩
  · simp [onFulfilled_of_falsy _ _ hok]
  · intro t summary rows ht hview
    simp only at hview
    simp [hview, reconcile, ht]
  · intro hnone t ht
    rw [hafter t ht, hnone]
    rfl
  · intro t ht
    have h := hafter t ht
    refine ⟨h, ?_, ?_⟩
    · rw [h]
      cases ui.table <;> rfl
    · rw [h]
      cases hprev : ui.table with
      | none => simp [TableState.initial]
      | some previous => simp

/-- Witness of C8: from the interface with row 0 expanded and a fetch in
flight, the arrival of the second document leaves row 0 expanded; from the
interface with the first document displayed and no row expanded, it leaves
no row expanded. -/
theorem C8_expansion_on_replacement_witness :
    (App (uiExpanded.step .fetchData).app).isCrash = false ∧
    strTruthy docTwo.error = false ∧
    ((uiExpanded.step .fetchData).step (.fulfilled docTwo)).app.data = some docTwo ∧
    ((uiExpanded.step .fetchData).step (.fulfilled docTwo)).table = some ⟨[], some 0⟩ ∧
    (⟨[], none⟩ : TableState) =
      ((UI.initial.run [.fetchData, .fulfilled docOne, .fetchData]).table.getD
        TableState.initial) :=
  ⟨by decide, by decide,
    (C8_expansion_on_replacement (uiExpanded.step .fetchData) docTwo
      (by decide) (by decide)).1,
    (C8_expansion_on_replacement (uiExpanded.step .fetchData) docTwo
      (by decide) (by decide)).2.1 ⟨[], some 0⟩ Summary.empty [qRow]
      (by decide) (by decide),
    ((C8_expansion_on_replacement
      (UI.initial.run [.fetchData, .fulfilled docOne, .fetchData]) docTwo
      (by decide) (by decide)).2.2.2 ⟨[], none⟩ (by decide)).1⟩

/-- Counterexample to C9: the body `{"error": ""}` has an `error` string
field, yet it is stored as the document, no error is set and the error view
is not rendered. -/
theorem C9_counterexample :
    (onFulfilled (fetchData AppState.initial) docEmptyError).data = some docEmptyError ∧
    (onFulfilled (fetchData AppState.initial) docEmptyError).error = .null ∧
    App (onFulfilled (fetchData AppState.initial) docEmptyError) ≠ .error (.val []) := by
  decide

/-- C9, amended: when a fetch completes with a body whose `error` field is a
non-empty string, the state ends with exactly that string as its error and
with the loading flag down, the document is left as it was, and the error
view with that message is rendered (the table is then not displayed). -/
theorem C9_payload_error (ui : UI) (body : Document) (message : JSString)
    (hlive : (App ui.app).isCrash = false)
    (hbody : body.error = .val message) (hne : message ≠ []) :
    onFulfilled ui.app body = { ui.app with error := .val message, loading := false } ∧
    (onFulfilled ui.app body).data = ui.app.data ∧
    App (onFulfilled ui.app body) = .error (.val message) ∧
    ui.step (.fulfilled body) = ⟨onFulfilled ui.app body, none⟩ := by
  have h := onFulfilled_of_error ui.app body message hbody hne
  have hview : App (onFulfilled ui.app body) = .error (.val message) := by
    rw [h]
    have ht : strTruthy (.val message) = true := by
      cases message with
      | nil => exact absurd rfl hne
      | cons c cs => rfl
    exact App_of_error _ ht rfl
  refine ⟨h, by rw [h], hview, ?_⟩
  simp [UI.step, hlive, AppState.step, hview, reconcile]

/-- Witness of C9: the body `{"error": "no results"}` arriving at the first
fetch gives the error view with the message "no results". -/
theorem C9_payload_error_witness :
    App (onFulfilled (UI.initial.step .fetchData).app docError) =
      .error (.val (str "no results")) ∧
    (onFulfilled (UI.initial.step .fetchData).app docError).data = none :=
  ⟨(C9_payload_error (UI.initial.step .fetchData) docError (str "no results")
      (by decide) rfl (by decide)).2.2.1,
    (C9_payload_error (UI.initial.step .fetchData) docError (str "no results")
      (by decide) rfl (by decide)).2.1⟩

/-- C10, the code at the failing input: after a failed first fetch, a
re-fetch that completes with a valid document stores the document and ends
the loading, yet `App` still renders the error view with the old message,
because `error` is never reset. -/
theorem C10_retry_keeps_error_view :
    App appFailed = .error (.val (str "Failed to fetch")) ∧
    ((appFailed.step .fetchData).step (.fulfilled docOne)).data = some docOne ∧
    ((appFailed.step .fetchData).step (.fulfilled docOne)).loading = false ∧
    App ((appFailed.step .fetchData).step (.fulfilled docOne)) =
      .error (.val (str "Failed to fetch")) ∧
    App ((appFailed.step .fetchData).step (.fulfilled docOne)) ≠
      .dashboard Summary.empty [ragRow, qRow] := by
  decide

/-! ## The loading view and the stored document -/

/-- Once rendering has thrown, an event changes nothing. -/
theorem UI.step_of_crash (ui : UI) (e : Event) (h : (App ui.app).isCrash = true) :
    ui.step e = ui := by
  simp [UI.step, h]

/-- While rendering has not thrown, the state of `App` moves by the event. -/
theorem UI.step_app (ui : UI) (e : Event) (h : (App ui.app).isCrash = false) :
    (ui.step e).app = ui.app.step e := by
  cases e <;> simp [UI.step, h, AppState.step]

/-- Once rendering has thrown, a sequence of events changes nothing. -/
theorem UI.run_of_crash (ui : UI) (events : List Event)
    (h : (App ui.app).isCrash = true) : ui.run events = ui := by
  induction events with
  | nil => rfl
  | cons e es ih =>
    show (ui.step e).run es = ui
    rw [UI.step_of_crash ui e h]
    exact ih

/-- The document is `null` after an event exactly when it was `null` before
and the event stores none. -/
theorem AppState.step_data_eq_none (s : AppState) (e : Event) :
    (s.step e).data = none ↔ s.data = none ∧ storesDocument e = false := by
  cases e with
  | fetchData => simp [AppState.step, fetchData, storesDocument]
  | rejected message => simp [AppState.step, onRejected, storesDocument]
  | toggleRow index => simp [AppState.step, storesDocument]
  | setSearchTerm value => simp [AppState.step, storesDocument]
  | fulfilled body =>
    cases h : strTruthy body.error <;>
      simp [AppState.step, onFulfilled, onRejected, storesDocument, h]

/-- The document is `null` after a sequence of events exactly when it was
`null` before and no executed event stores one. -/
theorem UI.run_data_eq_none (ui : UI) (events : List Event) :
    (ui.run events).app.data = none ↔
      ui.app.data = none ∧ ∀ e ∈ ui.executed events, storesDocument e = false := by
  induction events generalizing ui with
  | nil => simp [UI.run, UI.executed]
  | cons e es ih =>
    cases hc : (App ui.app).isCrash with
    | true =>
      rw [UI.run_of_crash ui _ hc]
      simp [UI.executed, hc]
    | false =>
      have hrun : ui.run (e :: es) = (ui.step e).run es := rfl
      rw [hrun, ih (ui.step e), UI.step_app ui e hc, AppState.step_data_eq_none]
      simp only [UI.executed, hc, Bool.false_eq_true, if_false, List.mem_cons,
        forall_eq_or_imp]
      tauto

/-- With the loading flag set, `App` renders the loading view exactly when
the document is `null`. -/
theorem App_loading_iff (s : AppState) (h : s.loading = true) :
    App s = .loading ↔ s.data = none := by
  cases hd : s.data with
  | none => simp [App, h, hd]
  | some doc =>
    simp only [App, h, hd, Option.isNone_some, Bool.and_false, Bool.false_eq_true,
      if_false, reduceCtorEq, iff_false]
    split_ifs
    · simp
    · split <;> simp

/-- With a document in the store, starting a fetch leaves the view as it is. -/
theorem App_fetchData (s : AppState) (doc : Document) (h : s.data = some doc) :
    App (fetchData s) = App s := by
  simp [App, fetchData, h]

/-- C11: after every sequence of events from the mount of `App`, the
document is `null` exactly when no executed event has stored one; whenever the
loading flag is set, the loading view is rendered if and only if no document
has ever been stored; and when a fetch is started while the dashboard of a
document is displayed, the loading flag is set, the document stays, and the
view is still that same dashboard. -/
theorem C11_stale_while_revalidate (events : List Event) :
    ((UI.initial.run events).app.data = none ↔
      ∀ e ∈ UI.initial.executed events, storesDocument e = false) ∧
    ((UI.initial.run events).app.loading = true →
      (App (UI.initial.run events).app = .loading ↔
        ∀ e ∈ UI.initial.executed events, storesDocument e = false)) ∧
    (∀ summary rows, App (UI.initial.run events).app = .dashboard summary rows →
      ((UI.initial.run events).step .fetchData).app.loading = true ∧
      ((UI.initial.run events).step .fetchData).app.data =
        (UI.initial.run events).app.data ∧
      App ((UI.initial.run events).step .fetchData).app = .dashboard summary rows) := by
  have hdata : (UI.initial.run events).app.data = none ↔
      ∀ e ∈ UI.initial.executed events, storesDocument e = false := by
    rw [UI.run_data_eq_none]
    exact ⟨fun h => h.2, fun h => ⟨rfl, h⟩⟩
  refine ⟨hdata, fun hload => (App_loading_iff _ hload).trans hdata, ?_⟩
  intro summary rows hview
  have hlive : (App (UI.initial.run events).app).isCrash = false := by
    rw [hview]; rfl
  rw [UI.step_app _ _ hlive]
  refine ⟨rfl, rfl, ?_⟩
  cases hd : (UI.initial.run events).app.data with
  | none =>
    exfalso
    simp only [App, hd, Option.isNone_none, Bool.and_true] at hview
    split_ifs at hview
  | some doc =>
    show App (fetchData (UI.initial.run events).app) = .dashboard summary rows
    rw [App_fetchData _ doc hd, hview]

/-- Witness of C11: during the first fetch the loading view is rendered; once
the first document is there, a re-fetch still shows its dashboard. -/
theorem C11_stale_while_revalidate_witness :
    App (UI.initial.run [.fetchData]).app = .loading ∧
    App ((UI.initial.run [.fetchData, .fulfilled docOne]).step .fetchData).app =
      .dashboard Summary.empty [ragRow, qRow] :=
  ⟨((C11_stale_while_revalidate [.fetchData]).2.1 (by decide)).2 (by decide),
    ((C11_stale_while_revalidate [.fetchData, .fulfilled docOne]).2.2
      Summary.empty [ragRow, qRow] (by decide)).2.2⟩

/-! ## Properties of MetricCard and the detail fields -/

/-- Counterexample to C12: for `undefined` the card shows nothing, not the
placeholder dash; a text is shown as it is; a detail field that is
`undefined` shows nothing. -/
theorem C12_counterexample :
    MetricCard .undefined = .nothing ∧
    MetricCard .undefined ≠ placeholderDash ∧
    MetricCard (.string (str "foo")) = .text (str "foo") ∧
    MetricCard (.string (str "foo")) ≠ placeholderDash ∧
    detailField .undefined = .nothing ∧
    detailField .undefined ≠ placeholderDash := by
  decide

/-- C12, amended: `MetricCard` shows a number with three decimals and every
other value as it is, which is nothing for `undefined`, `null` and booleans
and the text itself for a text; so a value that is no number gives the
placeholder dash only when it is the text "-".  A detail field shows a
number with three decimals and nothing when it is `undefined` or `null`,
never the placeholder dash. -/
theorem C12_metric_value (value : JSValue) (field : JSOpt ℚ) :
    (∀ x, MetricCard (.number x) = .fixed x 3) ∧
    (∀ s, MetricCard (.string s) = .text s) ∧
    ((value = .undefined ∨ value = .null ∨ ∃ b, value = .boolean b) →
      MetricCard value = .nothing) ∧
    ((∀ x, value ≠ .number x) →
      (MetricCard value = placeholderDash ↔ value = .string (str "-"))) ∧
    (∀ x, detailField (.val x) = .fixed x 3) ∧
    ((field = .undefined ∨ field = .null) → detailField field = .nothing) ∧
    detailField field ≠ placeholderDash := by
  refine ⟨fun _ => rfl, fun _ => rfl, ?_, ?_, fun _ => rfl, ?_, ?_⟩
  · rintro (h | h | ⟨b, h⟩) <;> rw [h] <;> rfl
  · intro hnum
    cases value with
    | undefined => simp [MetricCard, placeholderDash]
    | null => simp [MetricCard, placeholderDash]
    | boolean b => simp [MetricCard, placeholderDash]
    | number x => exact absurd rfl (hnum x)
    | string s => simp [MetricCard, placeholderDash]
  · rintro (h | h) <;> rw [h] <;> rfl
  · cases field <;> simp [detailField, JSOpt.chain, placeholderDash]

/-- Witness of C12: a missing metric of the summary shows nothing on its
card, and a missing detail field shows nothing. -/
theorem C12_metric_value_witness :
    MetricCard Summary.empty.nlp_bleu.toValue = .nothing ∧
    (MetricCard (.string (str "-")) = placeholderDash ↔
      JSValue.string (str "-") = .string (str "-")) ∧
    detailField Row.empty.nlp_bleu = .nothing :=
  ⟨(C12_metric_value Summary.empty.nlp_bleu.toValue .undefined).2.2.1 (Or.inl rfl),
    (C12_metric_value (.string (str "-")) .undefined).2.2.2.1
      (by intro x h; cases h),
    (C12_metric_value .undefined Row.empty.nlp_bleu).2.2.2.2.2.1 (Or.inl rfl)⟩

/-! ## Properties of the radar transform -/

/-- C13: for every summary, `chartData` has exactly four points, in the order
Faithfulness, Relevancy, Precision, Recall, whose values are the four RAG
metrics of the summary as they are (an absent one stays absent), each with
`fullMark` 1; a summary equal to this one gives the same points; and a
faithfulness of 0.8 gives the value 0.8 for the subject Faithfulness. -/
theorem C13_chartData (summary : Summary) :
    (chartData summary).length = 4 ∧
    (chartData summary).map (fun p => p.subject) =
      ["Faithfulness", "Relevancy", "Precision", "Recall"] ∧
    (chartData summary).map (fun p => p.A) =
      [summary.rag_faithfulness, summary.rag_answer_relevancy,
        summary.rag_context_precision, summary.rag_context_recall] ∧
    (∀ p ∈ chartData summary, p.fullMark = 1) ∧
    (∀ other : Summary, other = summary → chartData other = chartData summary) ∧
    (summary.rag_faithfulness = .val (8 / 10) →
      ∀ p ∈ chartData summary, p.subject = "Faithfulness" → p.A = .val (8 / 10)) := by
  refine ⟨rfl, rfl, rfl, ?_, ?_, ?_⟩
  · intro p hp
    simp only [chartData, List.mem_cons, List.mem_singleton, List.not_mem_nil,
      or_false] at hp
    rcases hp with h | h | h | h <;> rw [h]
  · intro other h; rw [h]
  · intro hf p hp hsubject
    simp only [chartData, List.mem_cons, List.mem_singleton, List.not_mem_nil,
      or_false] at hp
    rcases hp with h | h | h | h <;> rw [h] at hsubject ⊢
    · exact hf
    · exact absurd (show "Relevancy" = "Faithfulness" from hsubject) (by decide)
    · exact absurd (show "Precision" = "Faithfulness" from hsubject) (by decide)
    · exact absurd (show "Recall" = "Faithfulness" from hsubject) (by decide)

/-- Witness of C13: the summary whose only metric is a faithfulness of 0.8. -/
theorem C13_chartData_witness :
    ∀ p ∈ chartData { Summary.empty with rag_faithfulness := .val (8 / 10) },
      p.subject = "Faithfulness" → p.A = .val (8 / 10) :=
  (C13_chartData { Summary.empty with rag_faithfulness := .val (8 / 10) }).2.2.2.2.2 rfl

end Dashboard
